import Mathlib

/-!
Shallow embedding of the process-isolation layer of the `poli` package:
the child runtime loop (`src/poli/objective.py`), the caller-side
orchestration and external proxy (`src/poli/objective_factory.py`) and the
persistent registry (`src/poli/core/registry.py`), together with theorems
settling the specification claims about them.
-/

namespace Poli

/-- Values travelling over the multiprocessing channel, as the code
manipulates them: strings (message tags), integers (seeds), 2-D arrays of
strings (input/output batches as in the aloha example), problem setup
information (identified by its problem name), Python exceptions (kind plus
diagnostic text), and None. -/
inductive PyVal where
  | str (s : String)
  | int (n : Int)
  | arr (rows : List (List String))
  | pinfo (problemName : String)
  | exc (kind : String) (diagnostic : String)
  | pynone
  deriving DecidableEq, Repr

/-- A message on the wire is the Python list/tuple the code sends: a list
of values. -/
abbrev WireMsg := List PyVal

/-! ## Child runtime (`objective.py`, function `run`) -/

/-- The data a problem factory supplies to `run`:
`f, x0, y0 = objective_factory.create()` together with
`objective_factory.get_setup_information()`. The evaluation behaviour of
`f` is `eval`: on a request (the received message, splatted into `f`), it
either returns an output batch or raises a Python exception. -/
structure FactoryModel where
  x0 : List (List String)
  y0 : List (List String)
  problemName : String
  eval : WireMsg → Except PyVal PyVal

/-- The first message `run` sends after instantiating the factory
(objective.py line 32): `conn.send([x0, y0, objective_factory.get_setup_information()])`.
Note the message carries no tag and `run` has not received anything at this
point: the seed sent by the mother process is never consumed here. -/
def run_setup_send (fac : FactoryModel) : WireMsg :=
  [PyVal.arr fac.x0, PyVal.arr fac.y0, PyVal.pinfo fac.problemName]

/-- How one iteration of the `while True` loop in `run` ends, and how the
loop as a whole ends. `crashed` records an exception raised by `f(*msg)`
propagating out of the loop: the `try/except` around the call is commented
out in the source (objective.py lines 40-48), so nothing is sent and the
loop dies. -/
inductive LoopEnd where
  | closed
  | crashed (e : PyVal)
  | starved
  deriving DecidableEq, Repr

/-- The request/serve loop of `run` (objective.py lines 35-49): receive a
message; `None` breaks the loop and closes the connection; otherwise
`y = f(*msg)` is evaluated with no exception handler and the raw `y` is
sent back (untagged). The function returns the list of replies actually
sent and how the loop ended, given the stream of incoming messages. -/
def run_serve_loop (fac : FactoryModel) : List (Option WireMsg) → List PyVal × LoopEnd
  | [] => ([], LoopEnd.starved)
  | none :: _ => ([], LoopEnd.closed)
  | some req :: rest =>
    match fac.eval req with
    | Except.ok y =>
      let tail := run_serve_loop fac rest
      (y :: tail.1, tail.2)
    | Except.error e => ([], LoopEnd.crashed e)

/-! ## Caller-side handshake (`objective_factory.py`, `__create_as_isolated_process`) -/

/-- Outcome of the caller unpacking the first reply
(objective_factory.py lines 127-139): `msg_type, *msg = process_wrapper.recv()`,
then the three-way branch on `msg_type`. -/
inductive SetupResult where
  | ok (x0 y0 info : PyVal)
  | raised (e : PyVal)
  | unpackError
  | protocolError (got : PyVal)
  deriving DecidableEq, Repr

/-- The caller side of the SETUP handshake: the reply is destructured as
`msg_type, *msg`; a `"SETUP"` tag with three payload values succeeds, an
`"EXCEPTION"` tag re-raises the carried error after printing the traceback,
and any other head value ends in a raised ValueError (the code's
`raise ValueError("Internal error: received ... when expecting SETUP or EXCEPTION")`;
for the array heads the child actually sends, the comparison with a string
likewise raises a ValueError in Python). -/
def parseSetupReply (reply : WireMsg) : SetupResult :=
  match reply with
  | [] => SetupResult.unpackError
  | msgType :: rest =>
    if msgType = PyVal.str "SETUP" then
      match rest with
      | [x0, y0, info] => SetupResult.ok x0 y0 info
      | _ => SetupResult.unpackError
    else if msgType = PyVal.str "EXCEPTION" then
      match rest with
      | [e, _tb] => SetupResult.raised e
      | _ => SetupResult.unpackError
    else SetupResult.protocolError msgType

/-- The aloha factory of the examples (`registering_aloha.py`): initial
input `[["A","L","O","O","F"]]`, initial output `[[3]]` (three positional
matches against `["A","L","O","H","A"]`). Its evaluation never raises. -/
def alohaFactory : FactoryModel :=
  { x0 := [["A", "L", "O", "O", "F"]]
    y0 := [["3"]]
    problemName := "our_aloha"
    eval := fun _ => Except.ok (PyVal.arr [["3"]]) }

/-! ## External black-box proxy (`objective_factory.py`, class `ExternalBlackBox`) -/

/-- Observable result of one invocation of `ExternalBlackBox._black_box`
(objective_factory.py lines 41-55): the messages sent over the process
wrapper, the traceback texts printed, and either the returned output batch
or the exception raised in the caller. -/
structure CallResult where
  sent : List WireMsg
  printed : List PyVal
  outcome : Except PyVal PyVal
  deriving Repr

/-- Dispatch on the reply received by `ExternalBlackBox._black_box`
(objective_factory.py lines 43-55): the reply is destructured as
`msg_type, *val`; an `"EXCEPTION"` tag prints the carried traceback and
re-raises the carried error; a `"QUERY"` tag returns `val[0]`; any other
tag raises a ValueError. The result is the pair (printed texts, outcome). -/
def recv_branch (reply : WireMsg) : List PyVal × Except PyVal PyVal :=
  match reply with
  | [] =>
    ([], Except.error (PyVal.exc "ValueError" "not enough values to unpack"))
  | msgType :: val =>
    if msgType = PyVal.str "EXCEPTION" then
      match val with
      | [e, tb] => ([tb], Except.error e)
      | _ => ([], Except.error (PyVal.exc "ValueError" "cannot unpack exception payload"))
    else if msgType = PyVal.str "QUERY" then
      match val with
      | y :: _ => ([], Except.ok y)
      | [] => ([], Except.error (PyVal.exc "IndexError" "list index out of range"))
    else
      ([], Except.error
        (PyVal.exc "ValueError" "Internal error: unexpected tag when expecting QUERY or EXCEPTION"))

/-- One invocation of `ExternalBlackBox._black_box` on input `x` and
context `context`, given the reply the process wrapper will deliver: the
proxy sends exactly the one message `["QUERY", x, context]`, blocks on
`recv`, and then branches on the reply as in `recv_branch`. -/
def black_box_call (x context : PyVal) (reply : WireMsg) : CallResult :=
  { sent := [[PyVal.str "QUERY", x, context]]
    printed := (recv_branch reply).1
    outcome := (recv_branch reply).2 }

/-- The mutable state `terminate` reads and clears: the proxy's
`process_wrapper` field and its `observer` field, each either present or
already cleared to None. -/
structure ProxyState where
  processWrapper : Option Unit
  observer : Option Unit
  deriving DecidableEq, Repr

/-- Side effects `terminate` can produce. -/
inductive TerminateEvent where
  | sentQuit
  | closedChannel
  | observerFinish
  deriving DecidableEq, Repr

/-- `ExternalBlackBox.terminate` (objective_factory.py lines 57-66): if the
process wrapper is still attached, send `["QUIT", None]`, close the
channel and clear the field; if the observer is still attached, call its
`finish()` and clear the field. Returns the new state and the events in
order. -/
def terminate (s : ProxyState) : ProxyState × List TerminateEvent :=
  let step1 : ProxyState × List TerminateEvent :=
    match s.processWrapper with
    | some _ =>
      ({ s with processWrapper := none },
        [TerminateEvent.sentQuit, TerminateEvent.closedChannel])
    | none => (s, [])
  match step1.1.observer with
  | some _ =>
    ({ step1.1 with observer := none }, step1.2 ++ [TerminateEvent.observerFinish])
  | none => step1

/-! ## Registry (`core/registry.py`) -/

/-- Association-list primitives standing for the configparser sections
mapping (problem name to its `run_script_location` value). `assocFind` is
section lookup, `assocSet` is `config[name][...] = value` (overwriting in
place or appending a fresh section), `assocRemove` is
`config.remove_section(name)`. -/
def assocFind : List (String × String) → String → Option String
  | [], _ => none
  | (k, v) :: rest, name => if k = name then some v else assocFind rest name

/-- Overwrite the entry for `name`, or append it if absent. -/
def assocSet : List (String × String) → String → String → List (String × String)
  | [], name, v => [(name, v)]
  | (k, w) :: rest, name, v =>
    if k = name then (name, v) :: rest else (k, w) :: assocSet rest name v

/-- Remove the section named `name`. -/
def assocRemove : List (String × String) → String → List (String × String)
  | [], _ => []
  | (k, w) :: rest, name =>
    if k = name then assocRemove rest name else (k, w) :: assocRemove rest name

/-- The registry's in-memory configuration: the non-DEFAULT sections
(`config.sections()`), each carrying its `run_script_location`. The
reserved DEFAULT section (holding the observer script) is not a section in
configparser's sense and is kept out of this list, matching
`config.sections()`. -/
structure Config where
  sections : List (String × String)
  deriving DecidableEq, Repr

/-- `problem_name in config.sections()` of registry.py (DEFAULT excluded). -/
def sectionMem (cfg : Config) (name : String) : Bool :=
  (assocFind cfg.sections name).isSome

/-- `name in config` of configparser, as used by
`__create_as_isolated_process` and `__register_objective_if_available`:
membership includes the ever-present DEFAULT section. -/
def configMem (cfg : Config) (name : String) : Bool :=
  sectionMem cfg name || name = "DEFAULT"

/-- Outcome of `register_problem`: it either returned early after a
declined overwrite (warning, no write) or wrote the entry. -/
inductive RegisterOutcome where
  | declinedWarn
  | wrote (loc : String)
  deriving DecidableEq, Repr

/-- The confirmation check `user_input.lower() == "y"` of registry.py line
82: true exactly for the answers "y" and "Y". -/
def answerIsYes (a : String) : Bool := a = "y" || a = "Y"

/-- `register_problem` (registry.py lines 63-92), with the I/O made
explicit: `name` is the factory's problem name, `userAnswer` is what
`input(...)` would return when asked, and `newLoc` is the run script
location `make_run_script` produces. A fresh name adds its section and
writes; an existing name with `force=False` and an answer whose
lower-casing is not "y" warns and returns without touching the store;
otherwise the entry is overwritten. -/
def register_problem (cfg : Config) (name : String) (force : Bool)
    (userAnswer : String) (newLoc : String) : Config × RegisterOutcome :=
  if ¬ sectionMem cfg name then
    ({ sections := assocSet cfg.sections name newLoc }, RegisterOutcome.wrote newLoc)
  else if ¬ force ∧ ¬ answerIsYes userAnswer then
    (cfg, RegisterOutcome.declinedWarn)
  else
    ({ sections := assocSet cfg.sections name newLoc }, RegisterOutcome.wrote newLoc)

/-- `delete_problem` (registry.py lines 169-171): remove the section and
rewrite the store. -/
def delete_problem (cfg : Config) (name : String) : Config :=
  { sections := assocRemove cfg.sections name }

/-- The registered-problem lookup performed by
`__create_as_isolated_process` (objective_factory.py lines 113-120):
`if name not in config: raise ValueError(...)` then
`config[name][_RUN_SCRIPT_LOCATION]`. A name absent from the sections
fails; the DEFAULT pseudo-section passes the membership test but carries
no run script. -/
def lookupRunScript (cfg : Config) (name : String) : Except String String :=
  if ¬ configMem cfg name then
    Except.error "not registered"
  else
    match assocFind cfg.sections name with
    | some loc => Except.ok loc
    | none => Except.error "KeyError: run_script_location"

/-- Externally visible actions of `register_problem_from_repository`. -/
inductive ProvisionAction where
  | createEnv
  | runEntrypoint
  deriving DecidableEq, Repr

/-- `register_problem_from_repository` (registry.py lines 95-166). If the
name is already a registered section, warn and skip: no subprocess runs
and the configuration is untouched. Otherwise `conda env create` runs (a
pre-existing environment makes it fail with "already exists", which is
downgraded to a warning; any other failure, flag `envCreateFails`, is
re-raised), and then the problem's `register.py` entrypoint runs inside
the environment, whose effect is to write the registry entry (location
`entryLoc`); `entrypointFails` models that subprocess failing, which is
surfaced as a RuntimeError. -/
def register_problem_from_repository (cfg : Config) (name : String)
    (envExists : Bool) (envCreateFails : Bool) (entrypointFails : Bool)
    (entryLoc : String) : Except String (Config × List ProvisionAction) :=
  if sectionMem cfg name then
    Except.ok (cfg, [])
  else if envExists then
    if entrypointFails then Except.error "RuntimeError: entrypoint failed"
    else
      Except.ok ({ sections := assocSet cfg.sections name entryLoc },
        [ProvisionAction.createEnv, ProvisionAction.runEntrypoint])
  else if envCreateFails then
    Except.error "CalledProcessError: conda env create failed"
  else if entrypointFails then Except.error "RuntimeError: entrypoint failed"
  else
    Except.ok ({ sections := assocSet cfg.sections name entryLoc },
      [ProvisionAction.createEnv, ProvisionAction.runEntrypoint])

/-- `__register_objective_if_available` (objective_factory.py lines
146-178). Nothing happens when the name is already in the configuration.
An unregistered name that is not in AVAILABLE_OBJECTIVES raises; an
available one is installed when `forceRegister` is set or the user answers
exactly "y", and otherwise the function raises
`ValueError("... won't be registered. Aborting.")`. Installation defers to
`register_problem_from_repository`. -/
def register_objective_if_available (cfg : Config)
    (availableObjectives : List String) (name : String) (forceRegister : Bool)
    (userAnswer : String) (envExists envCreateFails entrypointFails : Bool)
    (entryLoc : String) : Except String Config :=
  if configMem cfg name then Except.ok cfg
  else if ¬ (name ∈ availableObjectives) then
    Except.error "ValueError: not registered and not available in the repository"
  else if forceRegister ∨ userAnswer = "y" then
    match register_problem_from_repository cfg name envExists envCreateFails
        entrypointFails entryLoc with
    | Except.ok (cfg1, _) => Except.ok cfg1
    | Except.error e => Except.error e
  else Except.error "ValueError: will not be registered. Aborting."

/-! ## Persisting the store (`registry.py`, `_write_config`) -/

/-- Primitive file operations issued by
`with open(config_file, "w+") as f: config.write(f)`: opening with mode
`w+` truncates the file in place, after which the serialized sections are
appended chunk by chunk. -/
inductive FsOp where
  | truncate
  | append (chunk : String)
  deriving DecidableEq, Repr

/-- Effect of one file operation on the on-disk contents. -/
def applyFsOp (disk : String) : FsOp → String
  | FsOp.truncate => ""
  | FsOp.append c => disk ++ c

/-- The operation sequence `_write_config` issues (registry.py lines
202-204): truncate the existing configuration file, then write the new
serialized contents. There is no write-to-temporary-then-rename step. -/
def write_config_ops (chunks : List String) : List FsOp :=
  FsOp.truncate :: chunks.map FsOp.append

/-- On-disk contents after the first `k` operations of `_write_config`
have executed and the write then stops (for example because the process
dies): the fold of the executed prefix over the old contents. -/
def diskAfter (old : String) (chunks : List String) (k : Nat) : String :=
  ((write_config_ops chunks).take k).foldl applyFsOp old

/-! ## Orchestrator (`objective_factory.py`, `create` and `start`) -/

/-- Observable outcome of a `create` or `start` call: which branch ran,
whether a process wrapper (and thus a channel) was created, how often
`observer.initialize_observer` and `f.set_observer` were invoked, the
returned observer information, and the exception the call ended with
(`none` when it returned normally; the error strings summarize the raised
exception). `observer` is the caller-supplied observer, carrying the
session information its `initialize_observer` would return. -/
structure OrchestratorTrace where
  isolatedPath : Bool
  wrapperSpawned : Bool
  initializeObserverCalls : Nat
  setObserverCalls : Nat
  observerInfo : Option String
  raised : Option String
  deriving DecidableEq, Repr

/-- The trace of `__create_as_isolated_process` followed by the observer
wiring of `create` (objective_factory.py lines 104-143 and 227-243),
entered after `__register_objective_if_available` returned normally with
configuration `cfg1`: the registered run script is looked up first
(lines 113-120; a failure raises before any process wrapper exists), then
the ProcessWrapper is spawned and `("SETUP", seed)` sent, and the reply is
unpacked as in `parseSetupReply` — a non-ok outcome raises after the
wrapper was already created, skipping all observer wiring. On success the
observer (if supplied) is initialized and its session information
returned, and `f.set_observer(observer)` is always invoked. -/
def isolated_create_trace (cfg1 : Config) (name : String)
    (setupReply : WireMsg) (observer : Option String) : OrchestratorTrace :=
  match lookupRunScript cfg1 name with
  | Except.error e =>
    { isolatedPath := true, wrapperSpawned := false,
      initializeObserverCalls := 0, setObserverCalls := 0,
      observerInfo := none, raised := some e }
  | Except.ok _ =>
    match parseSetupReply setupReply with
    | SetupResult.ok _ _ _ =>
      { isolatedPath := true, wrapperSpawned := true,
        initializeObserverCalls := if observer.isSome then 1 else 0,
        setObserverCalls := 1,
        observerInfo := observer, raised := none }
    | SetupResult.raised _ =>
      { isolatedPath := true, wrapperSpawned := true,
        initializeObserverCalls := 0, setObserverCalls := 0,
        observerInfo := none, raised := some "remote exception re-raised" }
    | SetupResult.unpackError =>
      { isolatedPath := true, wrapperSpawned := true,
        initializeObserverCalls := 0, setObserverCalls := 0,
        observerInfo := none, raised := some "ValueError: cannot unpack reply" }
    | SetupResult.protocolError _ =>
      { isolatedPath := true, wrapperSpawned := true,
        initializeObserverCalls := 0, setObserverCalls := 0,
        observerInfo := none,
        raised := some "ValueError: unexpected tag when expecting SETUP or EXCEPTION" }

/-- `create` (objective_factory.py lines 181-243). When the name is in
AVAILABLE_PROBLEM_FACTORIES and isolation is not forced,
`__create_from_repository` instantiates in-process and
`(problem_info, f, x0, y0, None)` is returned at once — no process
wrapper, no observer wiring. Otherwise the isolated-process path runs:
first `__register_objective_if_available`, whose ValueError exits
(unavailable name, declined installation, failed provisioning) propagate
before any ProcessWrapper exists; then `__create_as_isolated_process` and
the observer wiring as in `isolated_create_trace`. -/
def create (availableFactories availableObjectives : List String)
    (cfg : Config) (name : String) (forceRegister forceIsolation : Bool)
    (userAnswer : String) (envExists envCreateFails entrypointFails : Bool)
    (entryLoc : String) (setupReply : WireMsg) (observer : Option String) :
    OrchestratorTrace :=
  if name ∈ availableFactories ∧ forceIsolation = false then
    { isolatedPath := false, wrapperSpawned := false,
      initializeObserverCalls := 0, setObserverCalls := 0,
      observerInfo := none, raised := none }
  else
    match register_objective_if_available cfg availableObjectives name
        forceRegister userAnswer envExists envCreateFails entrypointFails
        entryLoc with
    | Except.error e =>
      { isolatedPath := true, wrapperSpawned := false,
        initializeObserverCalls := 0, setObserverCalls := 0,
        observerInfo := none, raised := some e }
    | Except.ok cfg1 => isolated_create_trace cfg1 name setupReply observer

/-- `start` (objective_factory.py lines 246-291): the same decision and
error exits as `create`, except that only the black box is returned (no
observer information), so `observerInfo` is `none` even on the successful
isolated path (lines 283-291 initialize the observer and call
`set_observer` but return only `f`). -/
def start (availableFactories availableObjectives : List String)
    (cfg : Config) (name : String) (forceRegister forceIsolation : Bool)
    (userAnswer : String) (envExists envCreateFails entrypointFails : Bool)
    (entryLoc : String) (setupReply : WireMsg) (observer : Option String) :
    OrchestratorTrace :=
  if name ∈ availableFactories ∧ forceIsolation = false then
    { isolatedPath := false, wrapperSpawned := false,
      initializeObserverCalls := 0, setObserverCalls := 0,
      observerInfo := none, raised := none }
  else
    match register_objective_if_available cfg availableObjectives name
        forceRegister userAnswer envExists envCreateFails entrypointFails
        entryLoc with
    | Except.error e =>
      { isolatedPath := true, wrapperSpawned := false,
        initializeObserverCalls := 0, setObserverCalls := 0,
        observerInfo := none, raised := some e }
    | Except.ok cfg1 =>
      { isolated_create_trace cfg1 name setupReply observer with
        observerInfo := none }

/-! ## Concrete fixtures -/

/-- The factory whose evaluation raises `RuntimeError("boom")` on every
request, standing for any black box that fails during `f(*msg)`. -/
def crashingFactory : FactoryModel :=
  { x0 := [["A"]]
    y0 := [["0"]]
    problemName := "crashing"
    eval := fun _ => Except.error (PyVal.exc "RuntimeError" "boom") }

/-- A configuration holding the registered aloha problem of the examples. -/
def cfgAloha : Config := { sections := [("our_aloha", "old_run.sh")] }

/-- Serialized contents of the persisted store before a mutation. -/
def oldStore : String := "[our_aloha]\nrun_script_location = old_run.sh\n\n"

/-- The chunks of the new serialized contents that `config.write` emits
(one chunk per section). -/
def newChunks : List String :=
  ["[DEFAULT]\nobserver = \n\n", "[our_aloha]\nrun_script_location = new_run.sh\n\n"]

/-- Concatenation of written chunks: the file contents a completed write
produces. -/
def strConcat : List String → String
  | [] => ""
  | c :: rest => c ++ strConcat rest

/-! ## Helper lemmas -/

theorem string_append_assoc (a b c : String) : a ++ b ++ c = a ++ (b ++ c) :=
  String.ext (by simp [String.data_append, List.append_assoc])

theorem foldl_append_ops (chunks : List String) (s : String) :
    (chunks.map FsOp.append).foldl applyFsOp s = s ++ strConcat chunks := by
  induction chunks generalizing s with
  | nil => simp [strConcat]
  | cons c tl ih =>
    simp only [List.map_cons, List.foldl_cons, applyFsOp, strConcat]
    rw [ih, string_append_assoc]

theorem assocFind_assocSet (l : List (String × String)) (n v : String) :
    assocFind (assocSet l n v) n = some v := by
  induction l with
  | nil => simp [assocSet, assocFind]
  | cons hd tl ih =>
    obtain ⟨k, w⟩ := hd
    by_cases h : k = n
    · simp [assocSet, assocFind, h]
    · simp only [assocSet, assocFind, if_neg h]
      exact ih

theorem assocFind_assocRemove (l : List (String × String)) (n : String) :
    assocFind (assocRemove l n) n = none := by
  induction l with
  | nil => simp [assocRemove, assocFind]
  | cons hd tl ih =>
    obtain ⟨k, w⟩ := hd
    by_cases h : k = n
    · simpa [assocRemove, h] using ih
    · simp only [assocRemove, if_neg h, assocFind]
      simpa [h] using ih

theorem register_from_repository_skips_registered (cfg : Config) (name : String)
    (envE envF entF : Bool) (loc : String) (h : sectionMem cfg name = true) :
    register_problem_from_repository cfg name envE envF entF loc
      = Except.ok (cfg, []) := by
  simp [register_problem_from_repository, h]

theorem lookup_set_ok (cfg : Config) (name v : String) :
    lookupRunScript { sections := assocSet cfg.sections name v } name
      = Except.ok v := by
  simp [lookupRunScript, configMem, sectionMem, assocFind_assocSet]

theorem isolated_create_trace_isolated (cfg1 : Config) (name : String)
    (reply : WireMsg) (obs : Option String) :
    (isolated_create_trace cfg1 name reply obs).isolatedPath = true := by
  unfold isolated_create_trace
  split
  · rfl
  · split <;> rfl

theorem create_isolated_of_not_fast (availF availO : List String) (cfg : Config)
    (name : String) (fr fi : Bool) (ans : String) (eE eF tF : Bool)
    (loc : String) (reply : WireMsg) (obs : Option String)
    (h : ¬ (name ∈ availF ∧ fi = false)) :
    (create availF availO cfg name fr fi ans eE eF tF loc reply obs).isolatedPath
      = true := by
  unfold create
  rw [if_neg h]
  split
  · rfl
  · exact isolated_create_trace_isolated _ name reply obs

theorem start_isolated_of_not_fast (availF availO : List String) (cfg : Config)
    (name : String) (fr fi : Bool) (ans : String) (eE eF tF : Bool)
    (loc : String) (reply : WireMsg) (obs : Option String)
    (h : ¬ (name ∈ availF ∧ fi = false)) :
    (start availF availO cfg name fr fi ans eE eF tF loc reply obs).isolatedPath
      = true := by
  unfold start
  rw [if_neg h]
  split
  · rfl
  · exact isolated_create_trace_isolated _ name reply obs

theorem not_fast_of_not_importable_or_forced (availF : List String)
    (name : String) (fi : Bool) (h : ¬ name ∈ availF ∨ fi = true) :
    ¬ (name ∈ availF ∧ fi = false) := by
  rcases h with h1 | h1
  · exact fun hc => h1 hc.1
  · intro hc
    rw [h1] at hc
    exact Bool.noConfusion hc.2

theorem isolated_create_trace_spawns (cfg1 : Config) (name : String)
    (reply : WireMsg) (obs : Option String) (loc2 : String)
    (hlook : lookupRunScript cfg1 name = Except.ok loc2) :
    (isolated_create_trace cfg1 name reply obs).wrapperSpawned = true := by
  cases hp : parseSetupReply reply <;>
    simp [isolated_create_trace, hlook, hp]

/-! ## Claims about the SETUP handshake and the serve loop -/

/-- C1: the specified SETUP handshake does not happen. The child runtime's
first message is the untagged list `[x0, y0, problem_info]` — it never
consumes the caller's `SETUP(seed)` message and never emits a SETUP tag —
so the caller's unpacking of the reply lands in the error branch instead
of returning `(x0, y0, problem_info)`; concretely so for the aloha
factory, and in general for every factory. -/
theorem c1_setup_handshake_broken :
    parseSetupReply (run_setup_send alohaFactory)
      = SetupResult.protocolError (PyVal.arr [["A", "L", "O", "O", "F"]]) ∧
    ∀ fac : FactoryModel,
      parseSetupReply (run_setup_send fac)
        = SetupResult.protocolError (PyVal.arr fac.x0) := by
  refine ⟨rfl, ?_⟩
  intro fac
  simp [parseSetupReply, run_setup_send]

/-- C2: an exception during evaluation is not caught. Since the
`try/except` around `y = f(*msg)` is commented out, the exception
propagates and kills the loop: no reply at all is sent for the failing
request (in particular no EXCEPTION-tagged one) and later requests are
never served — shown concretely for a two-request stream, and in general
for any factory whose evaluation raises. -/
theorem c2_exception_crashes_loop :
    run_serve_loop crashingFactory
        [some [PyVal.str "QUERY", PyVal.arr [["A"]], PyVal.pynone],
          some [PyVal.str "QUERY", PyVal.arr [["A"]], PyVal.pynone], none]
      = ([], LoopEnd.crashed (PyVal.exc "RuntimeError" "boom")) ∧
    ∀ (e : PyVal) (req : WireMsg) (rest : List (Option WireMsg)),
      run_serve_loop { alohaFactory with eval := fun _ => Except.error e }
          (some req :: rest)
        = ([], LoopEnd.crashed e) := by
  exact ⟨rfl, fun e req rest => rfl⟩

/-! ## Claims about the external proxy -/

/-- C3: each proxy invocation sends exactly one QUERY message; an
EXCEPTION-tagged reply re-raises the carried error after printing the
carried diagnostic text; a QUERY-tagged reply returns its payload; and any
other tag raises a ValueError. -/
theorem c3_proxy_query_roundtrip (x context : PyVal) (reply : WireMsg) :
    (black_box_call x context reply).sent = [[PyVal.str "QUERY", x, context]] ∧
    (∀ e tb, reply = [PyVal.str "EXCEPTION", e, tb] →
      (black_box_call x context reply).outcome = Except.error e ∧
      (black_box_call x context reply).printed = [tb]) ∧
    (∀ y rest, reply = PyVal.str "QUERY" :: y :: rest →
      (black_box_call x context reply).outcome = Except.ok y) ∧
    (∀ hd rest, reply = hd :: rest → hd ≠ PyVal.str "QUERY" →
      hd ≠ PyVal.str "EXCEPTION" →
      (black_box_call x context reply).outcome
        = Except.error (PyVal.exc "ValueError"
            "Internal error: unexpected tag when expecting QUERY or EXCEPTION")) := by
  refine ⟨rfl, ?_, ?_, ?_⟩
  · intro e tb h
    subst h
    exact ⟨rfl, rfl⟩
  · intro y rest h
    subst h
    rfl
  · intro hd rest h hq he
    subst h
    simp [black_box_call, recv_branch, hq, he]

/-- Witness for C3 at a concrete EXCEPTION reply. -/
theorem c3_proxy_query_roundtrip_witness :
    (black_box_call (PyVal.arr [["A"]]) PyVal.pynone
        [PyVal.str "EXCEPTION", PyVal.exc "RuntimeError" "boom",
          PyVal.str "trace text"]).outcome
      = Except.error (PyVal.exc "RuntimeError" "boom") ∧
    (black_box_call (PyVal.arr [["A"]]) PyVal.pynone
        [PyVal.str "EXCEPTION", PyVal.exc "RuntimeError" "boom",
          PyVal.str "trace text"]).printed
      = [PyVal.str "trace text"] :=
  (c3_proxy_query_roundtrip (PyVal.arr [["A"]]) PyVal.pynone
      [PyVal.str "EXCEPTION", PyVal.exc "RuntimeError" "boom",
        PyVal.str "trace text"]).2.1
    (PyVal.exc "RuntimeError" "boom") (PyVal.str "trace text") rfl

/-- C4: calling terminate twice raises nothing and the second call is a
no-op: the second call produces no events and does not change the state,
QUIT is sent and the channel closed exactly once when a wrapper was
attached (never otherwise), and the observer's finish runs exactly once
across the two calls when an observer was attached (never otherwise). -/
theorem c4_terminate_twice_noop (s : ProxyState) :
    (terminate (terminate s).1).2 = [] ∧
    (terminate (terminate s).1).1 = (terminate s).1 ∧
    (terminate s).2 ++ (terminate (terminate s).1).2
      = (if s.processWrapper.isSome then
          [TerminateEvent.sentQuit, TerminateEvent.closedChannel] else [])
        ++ (if s.observer.isSome then [TerminateEvent.observerFinish] else []) := by
  obtain ⟨pw, ob⟩ := s
  cases pw <;> cases ob <;> exact ⟨rfl, rfl, rfl⟩

/-! ## Claims about the registry -/

/-- C5 counterexample: with `our_aloha` already registered, `force=False`
and the confirmation declined, `register_problem` does not fail with any
error — it warns and returns, leaving the configuration unchanged —
whereas the registration helper on the create path raises a ValueError
when the user declines, so the two call sites do not behave the same. -/
theorem c5_counterexample :
    register_problem cfgAloha "our_aloha" false "n" "new_run.sh"
      = (cfgAloha, RegisterOutcome.declinedWarn) ∧
    register_objective_if_available { sections := [] } ["aloha"] "aloha" false "n"
        true false false "run_aloha.sh"
      = Except.error "ValueError: will not be registered. Aborting." := by
  exact ⟨rfl, rfl⟩

/-- C5 (amended): for every name with an existing registry entry,
`register_problem` with `force=False` and a declined confirmation returns
without raising and leaves the stored configuration unchanged, while the
create-path registration helper raises a ValueError when the user declines
installing an available but unregistered problem: the post-decline
behavior differs between the two call sites. -/
theorem c5_declined_overwrite_policy :
    (∀ (cfg : Config) (name answer newLoc : String),
      sectionMem cfg name = true → answerIsYes answer = false →
      register_problem cfg name false answer newLoc
        = (cfg, RegisterOutcome.declinedWarn)) ∧
    (∀ (cfg : Config) (avail : List String) (name answer : String)
        (envE envF entF : Bool) (loc : String),
      configMem cfg name = false → name ∈ avail → answer ≠ "y" →
      register_objective_if_available cfg avail name false answer envE envF entF loc
        = Except.error "ValueError: will not be registered. Aborting.") := by
  constructor
  · intro cfg name answer newLoc hmem hans
    simp [register_problem, hmem, hans]
  · intro cfg avail name answer envE envF entF loc hmem havail hans
    simp [register_objective_if_available, hmem, havail, hans]

/-- Witness for C5 (amended) at concrete inputs. -/
theorem c5_declined_overwrite_policy_witness :
    register_problem cfgAloha "our_aloha" false "no" "new_run.sh"
      = (cfgAloha, RegisterOutcome.declinedWarn) ∧
    register_objective_if_available { sections := [] } ["aloha"] "aloha" false "no"
        true false false "run_aloha.sh"
      = Except.error "ValueError: will not be registered. Aborting." :=
  ⟨c5_declined_overwrite_policy.1 cfgAloha "our_aloha" "no" "new_run.sh"
      (by decide) (by decide),
    c5_declined_overwrite_policy.2 { sections := [] } ["aloha"] "aloha" "no"
      true false false "run_aloha.sh" (by decide) (by decide) (by decide)⟩

/-- C6 counterexample: `_write_config` truncates the configuration file in
place and then appends the new contents; stopping after the first section
has been written leaves the store holding neither the complete old
contents nor the complete new contents. -/
theorem c6_counterexample :
    diskAfter oldStore newChunks 2 ≠ oldStore ∧
    diskAfter oldStore newChunks 2 ≠ strConcat newChunks := by
  decide

/-- C6 (amended): every registry mutation synchronously rewrites the
persisted store in place, with no atomic replace: before any operation the
store holds the old contents, a completed write leaves exactly the new
contents, but the write starts by truncating the file, so stopping after
`k` further chunk writes leaves exactly the first `k` chunks of the new
contents — in particular an empty store right after truncation — not the
old contents. -/
theorem c6_write_in_place_not_atomic (old : String) (chunks : List String) :
    diskAfter old chunks 0 = old ∧
    diskAfter old chunks 1 = "" ∧
    diskAfter old chunks (chunks.length + 1) = strConcat chunks ∧
    ∀ k, diskAfter old chunks (k + 1) = strConcat (chunks.take k) := by
  have key : ∀ k, diskAfter old chunks (k + 1) = strConcat (chunks.take k) := by
    intro k
    simp only [diskAfter, write_config_ops, List.take_succ_cons, List.foldl_cons,
      applyFsOp]
    rw [← List.map_take, foldl_append_ops]
    simp
  refine ⟨rfl, ?_, ?_, key⟩
  · simpa using key 0
  · simpa [List.take_length] using key chunks.length

/-- C7: provisioning from the repository is idempotent: when the name is
already a registered section it returns success at once, running no
subprocess and leaving the configuration untouched; and after a first
successful provisioning of an unregistered name, provisioning it again
returns success with no actions and the same configuration. -/
theorem c7_provision_idempotent :
    (∀ (cfg : Config) (name : String) (envE envF entF : Bool) (loc : String),
      sectionMem cfg name = true →
      register_problem_from_repository cfg name envE envF entF loc
        = Except.ok (cfg, [])) ∧
    (∀ (cfg : Config) (name loc : String) (envE : Bool),
      sectionMem cfg name = false →
      ∀ (cfg1 : Config) (acts : List ProvisionAction),
        register_problem_from_repository cfg name envE false false loc
          = Except.ok (cfg1, acts) →
        register_problem_from_repository cfg1 name envE false false loc
          = Except.ok (cfg1, [])) := by
  constructor
  · intro cfg name envE envF entF loc h
    exact register_from_repository_skips_registered cfg name envE envF entF loc h
  · intro cfg name loc envE hmem cfg1 acts h
    have hcfg1 : cfg1 = { sections := assocSet cfg.sections name loc } := by
      cases envE <;> simp [register_problem_from_repository, hmem] at h <;>
        exact h.1.symm
    have hsec : sectionMem cfg1 name = true := by
      rw [hcfg1]
      simp [sectionMem, assocFind_assocSet]
    exact register_from_repository_skips_registered cfg1 name envE false false loc hsec

/-- Witness for C7 at concrete inputs: provisioning the registered aloha
problem again, and provisioning twice starting from an empty store. -/
theorem c7_provision_idempotent_witness :
    register_problem_from_repository cfgAloha "our_aloha" true false false "x.sh"
      = Except.ok (cfgAloha, []) ∧
    register_problem_from_repository
        { sections := [("aloha", "run_aloha.sh")] } "aloha" false false false
        "run_aloha.sh"
      = Except.ok ({ sections := [("aloha", "run_aloha.sh")] }, []) :=
  ⟨c7_provision_idempotent.1 cfgAloha "our_aloha" true false false "x.sh" (by decide),
    c7_provision_idempotent.2 { sections := [] } "aloha" "run_aloha.sh" false
      (by decide) { sections := [("aloha", "run_aloha.sh")] }
      [ProvisionAction.createEnv, ProvisionAction.runEntrypoint] rfl⟩

/-- C8: after a `register_problem` call that wrote, looking the name up
(as the isolated-process creation path does) returns exactly the
just-written run script location; after `delete_problem`, looking the
name up fails with the not-registered error. -/
theorem c8_register_lookup_delete_lookup :
    (∀ (cfg : Config) (name : String) (force : Bool) (answer newLoc : String),
      (register_problem cfg name force answer newLoc).2
          = RegisterOutcome.wrote newLoc →
      lookupRunScript (register_problem cfg name force answer newLoc).1 name
        = Except.ok newLoc) ∧
    (∀ (cfg : Config) (name : String), name ≠ "DEFAULT" →
      lookupRunScript (delete_problem cfg name) name
        = Except.error "not registered") := by
  constructor
  · intro cfg name force answer newLoc hw
    unfold register_problem at hw ⊢
    by_cases h1 : ¬ sectionMem cfg name
    · rw [if_pos h1]
      exact lookup_set_ok cfg name newLoc
    · rw [if_neg h1] at hw ⊢
      by_cases h2 : ¬ force ∧ ¬ answerIsYes answer
      · rw [if_pos h2] at hw
        exact absurd hw (by simp)
      · rw [if_neg h2]
        exact lookup_set_ok cfg name newLoc
  · intro cfg name hname
    simp [delete_problem, lookupRunScript, configMem, sectionMem,
      assocFind_assocRemove, hname]

/-- Witness for C8 at concrete inputs: a fresh registration of
`our_aloha` followed by lookup, and deletion of the registered
`our_aloha` followed by lookup. -/
theorem c8_register_lookup_delete_lookup_witness :
    lookupRunScript
        (register_problem { sections := [] } "our_aloha" false "" "run_aloha.sh").1
        "our_aloha"
      = Except.ok "run_aloha.sh" ∧
    lookupRunScript (delete_problem cfgAloha "our_aloha") "our_aloha"
      = Except.error "not registered" :=
  ⟨c8_register_lookup_delete_lookup.1 { sections := [] } "our_aloha" false ""
      "run_aloha.sh" rfl,
    c8_register_lookup_delete_lookup.2 cfgAloha "our_aloha" (by decide)⟩

/-! ## Claims about the orchestrator -/

/-- C9: when the name is in the static catalog of importable factories and
isolation is not forced, both `create` and `start` take the in-process
path, create no process wrapper and raise nothing; the isolated-process
path is entered exactly when the name is not importable or isolation is
forced; a process wrapper exists only on the isolated path, and on it the
wrapper is created once registration has succeeded and the registered run
script is found — the ValueError exits before that point spawn no
wrapper. -/
theorem c9_fast_path_in_process :
    (∀ (availF availO : List String) (cfg : Config) (name : String)
        (fr : Bool) (ans : String) (eE eF tF : Bool) (loc : String)
        (reply : WireMsg) (obs : Option String),
      name ∈ availF →
      (create availF availO cfg name fr false ans eE eF tF loc reply
          obs).wrapperSpawned = false ∧
      (create availF availO cfg name fr false ans eE eF tF loc reply
          obs).isolatedPath = false ∧
      (create availF availO cfg name fr false ans eE eF tF loc reply
          obs).raised = none ∧
      (start availF availO cfg name fr false ans eE eF tF loc reply
          obs).wrapperSpawned = false ∧
      (start availF availO cfg name fr false ans eE eF tF loc reply
          obs).isolatedPath = false) ∧
    (∀ (availF availO : List String) (cfg : Config) (name : String)
        (fr fi : Bool) (ans : String) (eE eF tF : Bool) (loc : String)
        (reply : WireMsg) (obs : Option String),
      (¬ name ∈ availF ∨ fi = true) →
      (create availF availO cfg name fr fi ans eE eF tF loc reply
          obs).isolatedPath = true ∧
      (start availF availO cfg name fr fi ans eE eF tF loc reply
          obs).isolatedPath = true) ∧
    (∀ (availF availO : List String) (cfg : Config) (name : String)
        (fr fi : Bool) (ans : String) (eE eF tF : Bool) (loc : String)
        (reply : WireMsg) (obs : Option String),
      (create availF availO cfg name fr fi ans eE eF tF loc reply
          obs).isolatedPath = true →
      (¬ name ∈ availF ∨ fi = true)) ∧
    (∀ (availF availO : List String) (cfg : Config) (name : String)
        (fr fi : Bool) (ans : String) (eE eF tF : Bool) (loc : String)
        (reply : WireMsg) (obs : Option String),
      ((create availF availO cfg name fr fi ans eE eF tF loc reply
          obs).wrapperSpawned = true →
        (create availF availO cfg name fr fi ans eE eF tF loc reply
          obs).isolatedPath = true) ∧
      ((start availF availO cfg name fr fi ans eE eF tF loc reply
          obs).wrapperSpawned = true →
        (start availF availO cfg name fr fi ans eE eF tF loc reply
          obs).isolatedPath = true)) ∧
    (∀ (availF availO : List String) (cfg : Config) (name : String)
        (fr fi : Bool) (ans : String) (eE eF tF : Bool) (loc : String)
        (reply : WireMsg) (obs : Option String) (cfg1 : Config)
        (loc2 : String),
      (¬ name ∈ availF ∨ fi = true) →
      register_objective_if_available cfg availO name fr ans eE eF tF loc
          = Except.ok cfg1 →
      lookupRunScript cfg1 name = Except.ok loc2 →
      (create availF availO cfg name fr fi ans eE eF tF loc reply
          obs).wrapperSpawned = true ∧
      (start availF availO cfg name fr fi ans eE eF tF loc reply
          obs).wrapperSpawned = true) := by
  refine ⟨?_, ?_, ?_, ?_, ?_⟩
  · intro availF availO cfg name fr ans eE eF tF loc reply obs h
    simp [create, start, h]
  · intro availF availO cfg name fr fi ans eE eF tF loc reply obs h
    have hfast := not_fast_of_not_importable_or_forced availF name fi h
    exact ⟨create_isolated_of_not_fast availF availO cfg name fr fi ans eE eF tF
        loc reply obs hfast,
      start_isolated_of_not_fast availF availO cfg name fr fi ans eE eF tF
        loc reply obs hfast⟩
  · intro availF availO cfg name fr fi ans eE eF tF loc reply obs h
    by_cases hc : name ∈ availF ∧ fi = false
    · unfold create at h
      rw [if_pos hc] at h
      exact absurd h (by simp)
    · rcases not_and_or.mp hc with h1 | h1
      · exact Or.inl h1
      · right
        cases fi with
        | false => exact absurd rfl h1
        | true => rfl
  · intro availF availO cfg name fr fi ans eE eF tF loc reply obs
    constructor
    · intro h
      by_cases hc : name ∈ availF ∧ fi = false
      · unfold create at h
        rw [if_pos hc] at h
        exact absurd h (by simp)
      · exact create_isolated_of_not_fast availF availO cfg name fr fi ans eE eF
          tF loc reply obs hc
    · intro h
      by_cases hc : name ∈ availF ∧ fi = false
      · unfold start at h
        rw [if_pos hc] at h
        exact absurd h (by simp)
      · exact start_isolated_of_not_fast availF availO cfg name fr fi ans eE eF
          tF loc reply obs hc
  · intro availF availO cfg name fr fi ans eE eF tF loc reply obs cfg1 loc2
      h hreg hlook
    have hfast := not_fast_of_not_importable_or_forced availF name fi h
    constructor
    · unfold create
      rw [if_neg hfast, hreg]
      show (isolated_create_trace cfg1 name reply obs).wrapperSpawned = true
      exact isolated_create_trace_spawns cfg1 name reply obs loc2 hlook
    · unfold start
      rw [if_neg hfast, hreg]
      show (isolated_create_trace cfg1 name reply obs).wrapperSpawned = true
      exact isolated_create_trace_spawns cfg1 name reply obs loc2 hlook

/-- Witness for C9 at concrete inputs: the importable `our_aloha` on the
fast path; a non-importable name entering the isolated path; and the
registered `our_aloha` reaching the wrapper spawn on the isolated path. -/
theorem c9_fast_path_in_process_witness :
    (create ["our_aloha"] [] { sections := [] } "our_aloha" false false ""
        false false false "" [] (some "session")).wrapperSpawned = false ∧
    (create ["our_aloha"] [] { sections := [] } "foldx_sasa" false false ""
        false false false "" [] none).isolatedPath = true ∧
    (create [] [] cfgAloha "our_aloha" false false "" false false false ""
        [PyVal.str "SETUP", PyVal.pynone, PyVal.pynone, PyVal.pynone]
        none).wrapperSpawned = true :=
  ⟨(c9_fast_path_in_process.1 ["our_aloha"] [] { sections := [] } "our_aloha"
      false "" false false false "" [] (some "session") (by decide)).1,
    (c9_fast_path_in_process.2.1 ["our_aloha"] [] { sections := [] }
      "foldx_sasa" false false "" false false false "" [] none
      (Or.inl (by decide))).1,
    (c9_fast_path_in_process.2.2.2.2 [] [] cfgAloha "our_aloha" false false ""
      false false false ""
      [PyVal.str "SETUP", PyVal.pynone, PyVal.pynone, PyVal.pynone] none
      cfgAloha "old_run.sh" (Or.inl (by decide)) rfl rfl).1⟩

/-- C10: on the in-process fast path `create` returns `None` as the
observer session information and performs no observer wiring at all
(neither `initialize_observer` nor `set_observer` runs); whenever either
observer call happens, the isolated-process path was taken. -/
theorem c10_fast_path_no_observer_wiring :
    (∀ (availF availO : List String) (cfg : Config) (name : String)
        (fr : Bool) (ans : String) (eE eF tF : Bool) (loc : String)
        (reply : WireMsg) (obs : Option String),
      name ∈ availF →
      (create availF availO cfg name fr false ans eE eF tF loc reply
          obs).observerInfo = none ∧
      (create availF availO cfg name fr false ans eE eF tF loc reply
          obs).initializeObserverCalls = 0 ∧
      (create availF availO cfg name fr false ans eE eF tF loc reply
          obs).setObserverCalls = 0) ∧
    (∀ (availF availO : List String) (cfg : Config) (name : String)
        (fr fi : Bool) (ans : String) (eE eF tF : Bool) (loc : String)
        (reply : WireMsg) (obs : Option String),
      ((create availF availO cfg name fr fi ans eE eF tF loc reply
          obs).initializeObserverCalls ≠ 0 ∨
        (create availF availO cfg name fr fi ans eE eF tF loc reply
          obs).setObserverCalls ≠ 0) →
      (create availF availO cfg name fr fi ans eE eF tF loc reply
          obs).isolatedPath = true) := by
  constructor
  · intro availF availO cfg name fr ans eE eF tF loc reply obs h
    simp [create, h]
  · intro availF availO cfg name fr fi ans eE eF tF loc reply obs h
    by_cases hc : name ∈ availF ∧ fi = false
    · exfalso
      rcases h with h | h <;>
        (unfold create at h; rw [if_pos hc] at h; simp at h)
    · exact create_isolated_of_not_fast availF availO cfg name fr fi ans eE eF
        tF loc reply obs hc

/-- Witness for C10 at concrete inputs: the fast path for `our_aloha`
with an observer supplied, and a successful isolated-path call whose
`set_observer` invocation is observable. -/
theorem c10_fast_path_no_observer_wiring_witness :
    (create ["our_aloha"] [] { sections := [] } "our_aloha" false false ""
        false false false "" [] (some "session")).observerInfo = none ∧
    (create [] [] cfgAloha "our_aloha" false false "" false false false ""
        [PyVal.str "SETUP", PyVal.pynone, PyVal.pynone, PyVal.pynone]
        (some "session")).isolatedPath = true :=
  ⟨(c10_fast_path_no_observer_wiring.1 ["our_aloha"] [] { sections := [] }
      "our_aloha" false "" false false false "" [] (some "session")
      (by decide)).1,
    c10_fast_path_no_observer_wiring.2 [] [] cfgAloha "our_aloha" false false
      "" false false false ""
      [PyVal.str "SETUP", PyVal.pynone, PyVal.pynone, PyVal.pynone]
      (some "session") (Or.inr (by decide))⟩

end Poli
